import Mathlib

/-!
Verification development for the PySPFC power-flow orchestration core
(`pyspfc/grid.py`). The definitions below are a shallow embedding of the
`Grid` class: Python floats are modelled as rationals, Python dictionaries
as association lists, and Python exceptions (`KeyError`, `AttributeError`)
as `Option`/`Except` failures. Collaborator classes that live in modules
outside `grid.py` (`GridNode`, `BusAdmittanceMatrix`, `JacobianMatrix`,
`PowerFlow`, CSV import/export) are modelled only through the interface
`grid.py` uses, as documented on each definition.
-/

/-- Complex admittance value as stored on a grid line, with accessors
`get_real_part` / `get_imaginary_part` mirrored as fields. -/
structure ComplexValue where
  real_part : ℚ
  imag_part : ℚ
deriving DecidableEq, Repr

/-- A grid line: two endpoint names, a series admittance and a transverse
(shunt) admittance. `set_admittance` / `set_transverse_admittance` from the
source are modelled as functional record updates. -/
structure GridLine where
  node_i : String
  node_j : String
  admittance : ComplexValue
  transverse_admittance : ComplexValue
deriving DecidableEq, Repr

/-- Network settings as read by `grid.py`: nominal voltage `v_nom`, nominal
power `s_nom`, the per-unit-import flag `is_import_pu`, the
per-unit-resistance flag `is_resistance_pu`, and the slack node name. -/
structure Settings where
  v_nom : ℚ
  s_nom : ℚ
  is_import_pu : Bool
  is_resistance_pu : Bool
  slack : String
deriving DecidableEq, Repr

/-- One pass of the normalization loop body of
`Grid.create_bus_admittance_matrix` (lines 91-100): divide the real and
imaginary parts of both admittances of a line by the reference admittance
`y_nom`. -/
def normalize_gridline (y_nom : ℚ) (gridline : GridLine) : GridLine :=
  { gridline with
      admittance :=
        ⟨gridline.admittance.real_part / y_nom,
         gridline.admittance.imag_part / y_nom⟩
      transverse_admittance :=
        ⟨gridline.transverse_admittance.real_part / y_nom,
         gridline.transverse_admittance.imag_part / y_nom⟩ }

/-- The line-admittance normalization performed by
`Grid.create_bus_admittance_matrix` (lines 85-100): when
`settings.is_resistance_pu` is false, every line's series and transverse
admittance is divided componentwise by `y_nom = s_nom / v_nom ^ 2`,
mutating the line list in place; otherwise the list is untouched. The
subsequent `BusAdmittanceMatrix` instantiation is a collaborator outside
`grid.py` and does not touch the line list, so this function returns the
updated line list, which is what the normalization claims are about. -/
def create_bus_admittance_matrix (settings : Settings)
    (grid_line_list : List GridLine) : List GridLine :=
  if ¬ settings.is_resistance_pu then
    let y_nom := settings.s_nom / settings.v_nom ^ 2
    grid_line_list.map (normalize_gridline y_nom)
  else
    grid_line_list

/-- One entry of a generator's or load's time series: the active and
reactive setpoints stored under the keys `P` and `Q` for one timestamp. -/
structure SeriesEntry where
  P : ℚ
  Q : ℚ
deriving DecidableEq, Repr

/-- A generator as read by `grid.py`: static limits `p_max`, `p_min`,
`q_max`, `q_min` and a timestamp-indexed series. `series_data[timestamp]`
is a Python dict lookup raising `KeyError` on a missing key, modelled as
`List.lookup` returning `Option`. -/
structure Generator where
  p_max : ℚ
  p_min : ℚ
  q_max : ℚ
  q_min : ℚ
  series_data : List (Nat × SeriesEntry)
deriving DecidableEq, Repr

/-- A load as read by `grid.py`: a timestamp-indexed series only. -/
structure Load where
  series_data : List (Nat × SeriesEntry)
deriving DecidableEq, Repr

/-- A persistent grid node as accessed by `grid.py`: a name and the owned
generator and load collections. Further attributes of the `GridNode` class
(it lives in `pyspfc/gridelements/gridnode.py`, outside `src/`) are not
read by `Grid.prepare_data_for_powerflow` and are omitted. -/
structure GridNode where
  name : String
  generators : List Generator
  loads : List Load
deriving DecidableEq, Repr

/-- Modelled from the spec: the role-tag indices returned by
`GridNode.get_grid_node_type_index_of` (the `gridnode` module is not in
`src/`). The spec's data model names the three roles slack/PV/PQ; the only
property used here is that the three indices are distinct. -/
def get_grid_node_type_index_of (role : String) : Nat :=
  if role = "slack" then 0
  else if role = "PV" then 1
  else if role = "PQ" then 2
  else 3

/-- The per-node generator aggregates accumulated by the loop at lines
210-225 of `grid.py`: limit sums and the timestamp's generation sums. -/
structure GenSums where
  p_max : ℚ
  p_min : ℚ
  q_max : ℚ
  q_min : ℚ
  p_gen : ℚ
  q_gen : ℚ
deriving DecidableEq, Repr

/-- The generator summation loop (lines 218-225): a left fold over the
node's generators, failing like the Python `KeyError` when `timestamp` is
absent from some generator's series. -/
def sum_generators (generators : List Generator) (timestamp : Nat) :
    Option GenSums :=
  generators.foldlM
    (fun acc generator =>
      (generator.series_data.lookup timestamp).map fun entry =>
        ⟨acc.p_max + generator.p_max, acc.p_min + generator.p_min,
         acc.q_max + generator.q_max, acc.q_min + generator.q_min,
         acc.p_gen + entry.P, acc.q_gen + entry.Q⟩)
    ⟨0, 0, 0, 0, 0, 0⟩

/-- The load summation loop (lines 226-229): sums the timestamp's active
and reactive load, failing when the timestamp is absent from some load's
series. -/
def sum_loads (loads : List Load) (timestamp : Nat) : Option (ℚ × ℚ) :=
  loads.foldlM
    (fun acc load =>
      (load.series_data.lookup timestamp).map fun entry =>
        (acc.1 + entry.P, acc.2 + entry.Q))
    (0, 0)

/-- A transformed per-timestamp node, i.e. the `GridNode(...)` value built
by `prepare_data_for_powerflow` from keyword arguments. Keyword arguments
a branch does not pass default to `0` (the defaults live in the `gridnode`
module outside `src/`; no claim depends on them). -/
structure TransformedGridNode where
  name : String
  v_mag : ℚ
  v_angle : ℚ
  p_gen : ℚ
  q_gen : ℚ
  p_load : ℚ
  q_load : ℚ
  p_max : ℚ
  p_min : ℚ
  q_max : ℚ
  q_min : ℚ
  typenumber : Nat
deriving DecidableEq, Repr

/-- The power-base divisor of `prepare_data_for_powerflow` line 205:
`1` when the import is already per-unit, else the configured `s_nom`. -/
def pu_s_nom (settings : Settings) : ℚ :=
  if settings.is_import_pu then 1 else settings.s_nom

/-- The voltage-base reference of `prepare_data_for_powerflow` line 205. -/
def pu_v_nom (settings : Settings) : ℚ :=
  if settings.is_import_pu then 1 else settings.v_nom

/-- The slack-branch constructor call (lines 235-242): fixed voltage
magnitude 1.0 and angle 0, per-unit load and active-power limits, role
index of `"slack"`. -/
def slack_transformed (settings : Settings) (gridnode : GridNode)
    (g : GenSums) (l : ℚ × ℚ) : TransformedGridNode where
  name := gridnode.name
  v_mag := 1
  v_angle := 0
  p_gen := 0
  q_gen := 0
  p_load := l.1 / pu_s_nom settings
  q_load := l.2 / pu_s_nom settings
  p_max := g.p_max / pu_s_nom settings
  p_min := g.p_min / pu_s_nom settings
  q_max := 0
  q_min := 0
  typenumber := get_grid_node_type_index_of "slack"

/-- The PV-branch constructor call (lines 246-256): voltage magnitude
`v_nom / v_nom`, per-unit generation, load and all four limits, role index
of `"PV"`. -/
def pv_transformed (settings : Settings) (gridnode : GridNode)
    (g : GenSums) (l : ℚ × ℚ) : TransformedGridNode where
  name := gridnode.name
  v_mag := pu_v_nom settings / pu_v_nom settings
  v_angle := 0
  p_gen := g.p_gen / pu_s_nom settings
  q_gen := 0
  p_load := l.1 / pu_s_nom settings
  q_load := l.2 / pu_s_nom settings
  p_max := g.p_max / pu_s_nom settings
  p_min := g.p_min / pu_s_nom settings
  q_max := g.q_max / pu_s_nom settings
  q_min := g.q_min / pu_s_nom settings
  typenumber := get_grid_node_type_index_of "PV"

/-- The PQ-branch constructor call (lines 261-262): zero generation,
per-unit load only, role index of `"PQ"`. -/
def pq_transformed (settings : Settings) (gridnode : GridNode)
    (l : ℚ × ℚ) : TransformedGridNode where
  name := gridnode.name
  v_mag := 0
  v_angle := 0
  p_gen := 0
  q_gen := 0
  p_load := l.1 / pu_s_nom settings
  q_load := l.2 / pu_s_nom settings
  p_max := 0
  p_min := 0
  q_max := 0
  q_min := 0
  typenumber := get_grid_node_type_index_of "PQ"

/-- The per-node body of the classification loop of
`Grid.prepare_data_for_powerflow` (lines 209-263): aggregate the node's
generators and loads for the timestamp (propagating a `KeyError` as
`none`), then classify with slack-first precedence; Python's truthiness
test `elif sum_of_active_power_gen:` selects PV exactly when the
aggregated active generation is non-zero. The boolean records whether the
branch also appends the node to `voltagenodes`. -/
def transform_node (settings : Settings) (timestamp : Nat)
    (gridnode : GridNode) : Option (TransformedGridNode × Bool) :=
  (sum_generators gridnode.generators timestamp).bind fun g =>
    (sum_loads gridnode.loads timestamp).bind fun l =>
      if gridnode.name = settings.slack then
        some (slack_transformed settings gridnode g l, true)
      else if g.p_gen ≠ 0 then
        some (pv_transformed settings gridnode g l, true)
      else
        some (pq_transformed settings gridnode l, false)

/-- The classification loop of `Grid.prepare_data_for_powerflow`
(lines 198-265): walk the persistent node list in order, appending each
transformed node to `gridnodes` and, for slack and PV nodes, also to
`voltagenodes`; a missing series timestamp propagates as `none`
(`KeyError`). -/
def prepare_data_for_powerflow (settings : Settings) :
    List GridNode → Nat →
    Option (List TransformedGridNode × List TransformedGridNode)
  | [], _ => some ([], [])
  | gridnode :: rest, timestamp =>
    (transform_node settings timestamp gridnode).bind fun tb =>
      (prepare_data_for_powerflow settings rest timestamp).bind fun gv =>
        some (tb.1 :: gv.1, if tb.2 then tb.1 :: gv.2 else gv.2)

/-- Outcome of the multi-timestamp loop of `Grid.do_powerflow`:
`completed` with the timestamp-keyed results stored in
`self.gridnode_results`, or `aborted` when an unhandled exception escaped
while processing `failed_at`, in which case only the results of the
timestamps processed before the failure remain stored. -/
inductive RunOutcome (R : Type) where
  | completed : List (Nat × R) → RunOutcome R
  | aborted : List (Nat × R) → Nat → RunOutcome R
deriving DecidableEq, Repr

/-- The loop of `Grid.do_powerflow` (lines 180-196). For each timestamp it
calls `prepare_data_for_powerflow` and hands the classified lists to the
`JacobianMatrix`/`PowerFlow` collaborators (modules outside `src/`),
modelled by the abstract `solve` function, storing the result under the
timestamp's key. The source wraps nothing in `try`/`except`, so a
`KeyError` from a missing series timestamp (the `none` case) propagates
and ends the whole loop. -/
def do_powerflow {R : Type} (settings : Settings)
    (grid_node_list : List GridNode)
    (solve : Nat → List TransformedGridNode → List TransformedGridNode → R) :
    List Nat → RunOutcome R
  | [] => .completed []
  | timestamp :: rest =>
    match prepare_data_for_powerflow settings grid_node_list timestamp with
    | none => .aborted [] timestamp
    | some (gridnodes, voltagenodes) =>
      let result := solve timestamp gridnodes voltagenodes
      match do_powerflow settings grid_node_list solve rest with
      | .completed results => .completed ((timestamp, result) :: results)
      | .aborted results failed_at =>
          .aborted ((timestamp, result) :: results) failed_at

/-- One node entry of a per-timestamp node-result record as inspected by
`get_worstcase_results`: only the optional `v_magnitude` field is read
(`if` the key is present in the value dict). -/
structure NodeResultEntry where
  v_magnitude : Option ℚ
deriving DecidableEq, Repr

/-- Modelled from the spec: the `TIMESTAMP` column-label constant imported
from `pyspfc/csvexport.py` (not in `src/`); `get_worstcase_results` only
compares node-result keys against it. -/
def TIMESTAMP : String := "timestamp"

/-- A node-result record for one timestamp: an insertion-ordered dict from
keys to node entries, as iterated by `timestamp_data.items()`. -/
abbrev NodeResultRecord := List (String × NodeResultEntry)

/-- Running state of the scan in `Grid.get_worstcase_results`
(lines 340-343): the four local variables with their initial sentinels set
at the call site. -/
structure WorstcaseScan where
  min_voltage : ℚ
  max_voltage : ℚ
  min_worstcase_timestamp : Nat
  max_worstcase_timestamp : Nat
deriving DecidableEq, Repr

/-- The inner loop body of `Grid.get_worstcase_results` (lines 349-359):
skip the entry whose key is a key of `v_mag` (always exactly `TIMESTAMP`,
since the scan only ever appends to `v_mag[TIMESTAMP]` and never adds
keys); when the value exposes `v_magnitude`, update the running minimum
and maximum and their owning timestamps on strict improvement. -/
def scan_node_entry (timestamp : Nat) (st : WorstcaseScan)
    (entry : String × NodeResultEntry) : WorstcaseScan :=
  if entry.1 ≠ TIMESTAMP then
    match entry.2.v_magnitude with
    | some v =>
      let st1 :=
        if v < st.min_voltage then
          { st with min_voltage := v, min_worstcase_timestamp := timestamp }
        else st
      if v > st1.max_voltage then
        { st1 with max_voltage := v, max_worstcase_timestamp := timestamp }
      else st1
    | none => st
  else st

/-- The outer loop of `Grid.get_worstcase_results` (lines 346-359): walk
the timestamps in order, reading `self.gridnode_results[timestamp]`
(`KeyError`, i.e. `none`, when a timestamp has no recorded results) and
folding every node entry into the running scan state. -/
def scan_timestamps (gridnode_results : List (Nat × NodeResultRecord)) :
    List Nat → WorstcaseScan → Option WorstcaseScan
  | [], st => some st
  | timestamp :: rest, st =>
    match gridnode_results.lookup timestamp with
    | none => none
    | some timestamp_data =>
      scan_timestamps gridnode_results rest
        (timestamp_data.foldl (scan_node_entry timestamp) st)

/-- `Grid.get_worstcase_results` (lines 334-371): scan all recorded
timestamps starting from the sentinels `min_voltage = 1e20`,
`max_voltage = 0`, `min/max_worstcase_timestamp = 0`, then return, under
the labels `'min'` and `'max'`, the complete node-result and line-result
records stored for the two winning timestamps (a `KeyError` on those
lookups is `none`). The line-result payload type is opaque to this
method. -/
def get_worstcase_results {LineRes : Type} (timestamps : List Nat)
    (gridnode_results : List (Nat × NodeResultRecord))
    (gridline_results : List (Nat × LineRes)) :
    Option (List (String × NodeResultRecord) × List (String × LineRes)) :=
  (scan_timestamps gridnode_results timestamps
      ⟨100000000000000000000, 0, 0, 0⟩).bind
    fun st =>
      (gridnode_results.lookup st.min_worstcase_timestamp).bind fun min_n =>
        (gridnode_results.lookup st.max_worstcase_timestamp).bind fun max_n =>
          (gridline_results.lookup st.min_worstcase_timestamp).bind
            fun min_l =>
              (gridline_results.lookup st.max_worstcase_timestamp).bind
                fun max_l =>
                  some ([("min", min_n), ("max", max_n)],
                        [("min", min_l), ("max", max_l)])

/-- Every attribute name assigned on a `Grid` instance anywhere in the
class body of `grid.py` (Python name-mangles `self.__x` inside `class
Grid` to `_Grid__x`): the thirteen attributes of `__init__` (lines 28-50);
every later method assigns only to these same names or to items of the
result dicts. -/
def grid_assigned_attribute_names : List String :=
  ["_Grid__settings", "_Grid__grid_node_list", "_Grid__grid_line_list",
   "_Grid__transformer_list", "bus_admittance_matrix", "jacobi_matrix",
   "powerflow", "timestamps", "gridnode_results", "gridline_results",
   "gridnode_results_for_pdf", "gridline_results_for_pdf",
   "load_flow_reporter"]

/-- Python attribute-access failure. -/
inductive PyAttrError where
  | attributeError
deriving DecidableEq, Repr

/-- `Grid.get_inverse_of_bus_admittance_matrix` (lines 172-177): the body
reads `self.__bus_admittance_matrix`, i.e. the name-mangled attribute
`_Grid__bus_admittance_matrix`; Python raises `AttributeError` when that
name is not among the instance's assigned attributes, and otherwise the
call would proceed to the collaborator's `calc_inverse()` (modelled as
`Unit`, since it is never reached from any reachable state). -/
def get_inverse_of_bus_admittance_matrix (attrs : List String) :
    Except PyAttrError Unit :=
  if "_Grid__bus_admittance_matrix" ∈ attrs then
    Except.ok ()
  else
    Except.error PyAttrError.attributeError

/-- Inversion principle for `transform_node`: a successful transformation
lands in exactly one of the three classification branches, with both
aggregation passes successful. -/
theorem transform_node_eq {settings : Settings} {timestamp : Nat}
    {gridnode : GridNode} {tn : TransformedGridNode} {b : Bool}
    (h : transform_node settings timestamp gridnode = some (tn, b)) :
    ∃ g l, sum_generators gridnode.generators timestamp = some g ∧
      sum_loads gridnode.loads timestamp = some l ∧
      ((gridnode.name = settings.slack ∧
          tn = slack_transformed settings gridnode g l ∧ b = true) ∨
       (gridnode.name ≠ settings.slack ∧ g.p_gen ≠ 0 ∧
          tn = pv_transformed settings gridnode g l ∧ b = true) ∨
       (gridnode.name ≠ settings.slack ∧ g.p_gen = 0 ∧
          tn = pq_transformed settings gridnode l ∧ b = false)) := by
  cases hg : sum_generators gridnode.generators timestamp with
  | none => simp [transform_node, hg] at h
  | some g =>
    cases hl : sum_loads gridnode.loads timestamp with
    | none => simp [transform_node, hg, hl] at h
    | some l =>
      refine ⟨g, l, rfl, rfl, ?_⟩
      simp only [transform_node, hg, hl, Option.some_bind] at h
      split_ifs at h with h1 h2 <;>
        simp only [Option.some.injEq, Prod.mk.injEq] at h
      · exact Or.inl ⟨h1, h.1.symm, h.2.symm⟩
      · exact Or.inr (Or.inl ⟨h1, h2, h.1.symm, h.2.symm⟩)
      · exact Or.inr (Or.inr ⟨h1, not_ne_iff.mp h2, h.1.symm, h.2.symm⟩)

/-- A transformed node keeps the persistent node's name. -/
theorem transform_node_name {settings : Settings} {timestamp : Nat}
    {gridnode : GridNode} {tn : TransformedGridNode} {b : Bool}
    (h : transform_node settings timestamp gridnode = some (tn, b)) :
    tn.name = gridnode.name := by
  obtain ⟨g, l, _, _, hc⟩ := transform_node_eq h
  rcases hc with ⟨_, rfl, _⟩ | ⟨_, _, rfl, _⟩ | ⟨_, _, rfl, _⟩ <;> rfl

/-- A transformed node carries the slack role index exactly when the
persistent node's name is the configured slack name. -/
theorem transform_node_slack_typenumber {settings : Settings}
    {timestamp : Nat} {gridnode : GridNode} {tn : TransformedGridNode}
    {b : Bool}
    (h : transform_node settings timestamp gridnode = some (tn, b)) :
    (tn.typenumber = get_grid_node_type_index_of "slack" ↔
      gridnode.name = settings.slack) := by
  obtain ⟨g, l, _, _, hc⟩ := transform_node_eq h
  rcases hc with ⟨hn, rfl, _⟩ | ⟨hn, _, rfl, _⟩ | ⟨hn, _, rfl, _⟩
  · simp [slack_transformed, hn]
  · simp [pv_transformed, get_grid_node_type_index_of, hn]
  · simp [pq_transformed, get_grid_node_type_index_of, hn]

/-- Inversion principle for one step of the classification loop. -/
theorem prepare_cons_inv {settings : Settings} {gridnode : GridNode}
    {rest : List GridNode} {timestamp : Nat}
    {gs vs : List TransformedGridNode}
    (h : prepare_data_for_powerflow settings (gridnode :: rest) timestamp =
      some (gs, vs)) :
    ∃ tn b gs' vs',
      transform_node settings timestamp gridnode = some (tn, b) ∧
      prepare_data_for_powerflow settings rest timestamp = some (gs', vs') ∧
      gs = tn :: gs' ∧ vs = (if b then tn :: vs' else vs') := by
  cases htn : transform_node settings timestamp gridnode with
  | none => simp [prepare_data_for_powerflow, htn] at h
  | some tb =>
    cases hrest : prepare_data_for_powerflow settings rest timestamp with
    | none => simp [prepare_data_for_powerflow, htn, hrest] at h
    | some gv =>
      obtain ⟨tn0, b0⟩ := tb
      obtain ⟨gs0, vs0⟩ := gv
      simp only [prepare_data_for_powerflow, htn, hrest, Option.some_bind,
        Option.some.injEq, Prod.mk.injEq] at h
      exact ⟨tn0, b0, gs0, vs0, rfl, rfl, h.1.symm, h.2.symm⟩

/-- The base case of the classification loop returns two empty lists. -/
theorem prepare_nil_inv {settings : Settings} {timestamp : Nat}
    {gs vs : List TransformedGridNode}
    (h : prepare_data_for_powerflow settings [] timestamp = some (gs, vs)) :
    gs = [] ∧ vs = [] := by
  simp only [prepare_data_for_powerflow, Option.some.injEq,
    Prod.mk.injEq] at h
  exact ⟨h.1.symm, h.2.symm⟩

/-- Structure of a successful classification pass: the transformed list is
index-aligned with the persistent list, each entry is the transformation
of the persistent node at the same index, and entries flagged for the
fixed-voltage subset are members of it. -/
theorem prepare_get {settings : Settings} :
    ∀ {nodes : List GridNode} {timestamp : Nat}
      {gs vs : List TransformedGridNode},
      prepare_data_for_powerflow settings nodes timestamp = some (gs, vs) →
      gs.length = nodes.length ∧
      (∀ i (hi : i < nodes.length) (hi' : i < gs.length),
        ∃ b, transform_node settings timestamp (nodes.get ⟨i, hi⟩) =
            some (gs.get ⟨i, hi'⟩, b) ∧
          (b = true → gs.get ⟨i, hi'⟩ ∈ vs)) := by
  intro nodes
  induction nodes with
  | nil =>
    intro timestamp gs vs h
    obtain ⟨rfl, rfl⟩ := prepare_nil_inv h
    exact ⟨rfl, fun i hi => absurd hi (Nat.not_lt_zero i)⟩
  | cons n rest ih =>
    intro timestamp gs vs h
    obtain ⟨tn, b, gs', vs', htn, hrest, rfl, rfl⟩ := prepare_cons_inv h
    obtain ⟨hlen, hpt⟩ := ih hrest
    refine ⟨by simp [hlen], ?_⟩
    intro i hi hi'
    cases i with
    | zero =>
      refine ⟨b, htn, fun hb => ?_⟩
      subst hb
      simp [List.get]
    | succ j =>
      obtain ⟨b', hb', hmem⟩ :=
        hpt j (Nat.lt_of_succ_lt_succ hi) (Nat.lt_of_succ_lt_succ hi')
      refine ⟨b', hb', fun hbt => ?_⟩
      have hmem' := hmem hbt
      cases b
      · simpa using hmem'
      · simp only [if_pos rfl, List.get]
        exact List.mem_cons_of_mem _ hmem'

/-- Every member of the fixed-voltage subset was produced by the slack or
the PV branch. -/
theorem prepare_voltagenodes_typenumber {settings : Settings} :
    ∀ {nodes : List GridNode} {timestamp : Nat}
      {gs vs : List TransformedGridNode},
      prepare_data_for_powerflow settings nodes timestamp = some (gs, vs) →
      ∀ v ∈ vs, v.typenumber = get_grid_node_type_index_of "slack" ∨
        v.typenumber = get_grid_node_type_index_of "PV" := by
  intro nodes
  induction nodes with
  | nil =>
    intro timestamp gs vs h
    obtain ⟨rfl, rfl⟩ := prepare_nil_inv h
    intro v hv
    exact absurd hv (List.not_mem_nil v)
  | cons n rest ih =>
    intro timestamp gs vs h
    obtain ⟨tn, b, gs', vs', htn, hrest, rfl, rfl⟩ := prepare_cons_inv h
    intro v hv
    cases b with
    | false =>
      have hv' : v ∈ vs' := by simpa using hv
      exact ih hrest v hv'
    | true =>
      have hv' : v = tn ∨ v ∈ vs' := by simpa using hv
      rcases hv' with rfl | hv'
      · obtain ⟨g, l, _, _, hc⟩ := transform_node_eq htn
        rcases hc with ⟨_, htv, _⟩ | ⟨_, _, htv, _⟩ | ⟨_, _, _, hfalse⟩
        · rw [htv]
          exact Or.inl rfl
        · rw [htv]
          exact Or.inr rfl
        · cases hfalse
      · exact ih hrest v hv'

/-- The number of slack-role entries in the transformed list equals the
number of persistent nodes bearing the configured slack name. -/
theorem prepare_slack_count {settings : Settings} :
    ∀ {nodes : List GridNode} {timestamp : Nat}
      {gs vs : List TransformedGridNode},
      prepare_data_for_powerflow settings nodes timestamp = some (gs, vs) →
      gs.countP
          (fun tn => tn.typenumber == get_grid_node_type_index_of "slack") =
        nodes.countP (fun n => n.name == settings.slack) := by
  intro nodes
  induction nodes with
  | nil =>
    intro timestamp gs vs h
    obtain ⟨rfl, rfl⟩ := prepare_nil_inv h
    rfl
  | cons n rest ih =>
    intro timestamp gs vs h
    obtain ⟨tn, b, gs', vs', htn, hrest, rfl, rfl⟩ := prepare_cons_inv h
    have hb : (tn.typenumber == get_grid_node_type_index_of "slack") =
        (n.name == settings.slack) := by
      rw [Bool.eq_iff_iff, beq_iff_eq, beq_iff_eq]
      exact transform_node_slack_typenumber htn
    simp only [List.countP_cons, hb, ih hrest]

/-- Every transformed node carrying the slack role bears the configured
slack name. -/
theorem prepare_slack_name {settings : Settings} :
    ∀ {nodes : List GridNode} {timestamp : Nat}
      {gs vs : List TransformedGridNode},
      prepare_data_for_powerflow settings nodes timestamp = some (gs, vs) →
      ∀ tn ∈ gs, tn.typenumber = get_grid_node_type_index_of "slack" →
        tn.name = settings.slack := by
  intro nodes
  induction nodes with
  | nil =>
    intro timestamp gs vs h
    obtain ⟨rfl, rfl⟩ := prepare_nil_inv h
    intro tn hmem
    exact absurd hmem (List.not_mem_nil tn)
  | cons n rest ih =>
    intro timestamp gs vs h
    obtain ⟨tn0, b, gs', vs', htn0, hrest, rfl, rfl⟩ := prepare_cons_inv h
    intro tn hmem htype
    rcases List.mem_cons.mp hmem with rfl | hmem'
    · rw [transform_node_name htn0]
      exact (transform_node_slack_typenumber htn0).mp htype
    · exact ih hrest tn hmem' htype

/-- Concrete four-node test network used to instantiate the universally
quantified claims: a slack node `S`, a generating node `G`, a load-only
node `L` and an isolated node `Z`, with a single timestamp `1` present in
every series. -/
def w_settings : Settings := ⟨1, 1, false, false, "S"⟩

/-- A generator with limits `p_max = 50`, `p_min = 0`, `q_max = 10`,
`q_min = -10` and one series entry for timestamp 1. -/
def w_gen : Generator := ⟨50, 0, 10, -10, [(1, ⟨5, 1⟩)]⟩

/-- A load with one series entry for timestamp 1. -/
def w_load : Load := ⟨[(1, ⟨3, 2⟩)]⟩

/-- The persistent node list of the test network. -/
def w_nodes : List GridNode :=
  [⟨"S", [w_gen], []⟩, ⟨"G", [w_gen], [w_load]⟩,
   ⟨"L", [], [w_load]⟩, ⟨"Z", [], []⟩]

/-- The full transformed node list the classification produces for the
test network at timestamp 1. -/
def w_gridnodes : List TransformedGridNode :=
  [⟨"S", 1, 0, 0, 0, 0, 0, 50, 0, 0, 0, 0⟩,
   ⟨"G", 1, 0, 5, 0, 3, 2, 50, 0, 10, -10, 1⟩,
   ⟨"L", 0, 0, 0, 0, 3, 2, 0, 0, 0, 0, 2⟩,
   ⟨"Z", 0, 0, 0, 0, 0, 0, 0, 0, 0, 0, 2⟩]

/-- The fixed-voltage subset the classification produces for the test
network at timestamp 1: the slack node and the PV node. -/
def w_voltagenodes : List TransformedGridNode :=
  [⟨"S", 1, 0, 0, 0, 0, 0, 50, 0, 0, 0, 0⟩,
   ⟨"G", 1, 0, 5, 0, 3, 2, 50, 0, 10, -10, 1⟩]

/-- Evaluation of the classification on the test network, shared by the
witnesses below. -/
theorem w_prepare_eq :
    prepare_data_for_powerflow w_settings w_nodes 1 =
      some (w_gridnodes, w_voltagenodes) := by
  have h5 : (5 : ℚ) ≠ 0 := by norm_num
  simp [prepare_data_for_powerflow, transform_node, sum_generators,
    sum_loads, slack_transformed, pv_transformed, pq_transformed,
    pu_s_nom, pu_v_nom, List.lookup, get_grid_node_type_index_of,
    w_settings, w_gen, w_load, w_nodes, w_gridnodes, w_voltagenodes, h5]

/-- Settings for the C1 failing input: raw (non-per-unit) resistances with
reference admittance `y_nom = s_nom / v_nom ^ 2 = 4`. -/
def c1_settings : Settings := ⟨1, 4, false, false, "A"⟩

/-- Line of the C1 failing input: series admittance `4 + j8`, transverse
admittance `16 + j4`. -/
def c1_line : GridLine := ⟨"A", "B", ⟨4, 8⟩, ⟨16, 4⟩⟩

/-- C1: the claim says a second invocation of
`create_bus_admittance_matrix` leaves every line admittance at its value
after the first invocation. The code re-enters the normalization branch
(nothing clears `is_resistance_pu`) and divides by `y_nom` again: with
`y_nom = 4` the first call turns `(4+j8, 16+j4)` into `(1+j2, 4+j1)` and
the second call turns that into `(1/4+j1/2, 1+j1/4)`, so re-invocation is
not the identity and the claimed idempotence fails on the code. -/
theorem c1_normalization_reinvocation_redivides :
    create_bus_admittance_matrix c1_settings [c1_line] =
      [⟨"A", "B", ⟨1, 2⟩, ⟨4, 1⟩⟩] ∧
    create_bus_admittance_matrix c1_settings
        (create_bus_admittance_matrix c1_settings [c1_line]) =
      [⟨"A", "B", ⟨1/4, 1/2⟩, ⟨1, 1/4⟩⟩] ∧
    create_bus_admittance_matrix c1_settings
        (create_bus_admittance_matrix c1_settings [c1_line]) ≠
      create_bus_admittance_matrix c1_settings [c1_line] := by
  refine ⟨?_, ?_, ?_⟩ <;>
    norm_num [create_bus_admittance_matrix, normalize_gridline,
      c1_settings, c1_line]

/-- Settings for the C9 counterexample: the per-unit-import flag is set
but the per-unit-resistance flag is not. -/
def c9_settings : Settings := ⟨1, 2, true, false, "A"⟩

/-- Line of the C9 counterexample. -/
def c9_line : GridLine := ⟨"A", "B", ⟨2, 4⟩, ⟨6, 8⟩⟩

/-- C9 counterexample: with the settings' per-unit-import flag set (but
the per-unit-resistance flag clear), `create_bus_admittance_matrix` still
divides every admittance by `y_nom = 2`, so the normalization is not a
no-op as the claim states: the guard the code tests is
`is_resistance_pu`, not the per-unit-import flag. -/
theorem c9_import_pu_flag_does_not_make_noop :
    c9_settings.is_import_pu = true ∧
    create_bus_admittance_matrix c9_settings [c9_line] ≠ [c9_line] := by
  refine ⟨rfl, ?_⟩
  norm_num [create_bus_admittance_matrix, normalize_gridline,
    c9_settings, c9_line]

/-- C9 amended: the flag that makes `create_bus_admittance_matrix` leave
every line's series and transverse admittance unchanged is the settings'
per-unit-resistance flag `is_resistance_pu`, not the per-unit-import
flag. -/
theorem c9_resistance_pu_normalization_noop (settings : Settings)
    (grid_line_list : List GridLine)
    (h : settings.is_resistance_pu = true) :
    create_bus_admittance_matrix settings grid_line_list =
      grid_line_list := by
  simp [create_bus_admittance_matrix, h]

/-- Witness for the amended C9 at a concrete input. -/
theorem c9_resistance_pu_normalization_noop_witness :
    (⟨1, 2, true, true, "A"⟩ : Settings).is_resistance_pu = true ∧
    create_bus_admittance_matrix ⟨1, 2, true, true, "A"⟩ [c9_line] =
      [c9_line] :=
  ⟨rfl, c9_resistance_pu_normalization_noop ⟨1, 2, true, true, "A"⟩
    [c9_line] rfl⟩

/-- C3: a successful classification pass returns a full transformed list
of exactly the persistent list's length, and the transformed node at each
index bears the name of the persistent node at the same index — no node
is dropped, added, or reordered. -/
theorem c3_classification_preserves_length_and_names (settings : Settings)
    (nodes : List GridNode) (timestamp : Nat)
    (gs vs : List TransformedGridNode)
    (h : prepare_data_for_powerflow settings nodes timestamp =
      some (gs, vs)) :
    gs.length = nodes.length ∧
    ∀ i (hi : i < nodes.length) (hi' : i < gs.length),
      (gs.get ⟨i, hi'⟩).name = (nodes.get ⟨i, hi⟩).name := by
  obtain ⟨hlen, hpt⟩ := prepare_get h
  refine ⟨hlen, fun i hi hi' => ?_⟩
  obtain ⟨b, htn, _⟩ := hpt i hi hi'
  exact transform_node_name htn

/-- Witness for C3 at the concrete test network. -/
theorem c3_classification_preserves_length_and_names_witness :
    w_gridnodes.length = w_nodes.length ∧
    ∀ i (hi : i < w_nodes.length) (hi' : i < w_gridnodes.length),
      (w_gridnodes.get ⟨i, hi'⟩).name = (w_nodes.get ⟨i, hi⟩).name :=
  c3_classification_preserves_length_and_names w_settings w_nodes 1
    w_gridnodes w_voltagenodes w_prepare_eq

/-- C6: when exactly one persistent node bears the configured slack name
(the import contract), the transformed node list for any timestamp
contains exactly one node carrying the slack role index, and every
transformed node carrying the slack role index bears the configured slack
name. -/
theorem c6_exactly_one_slack_per_timestamp (settings : Settings)
    (nodes : List GridNode) (timestamp : Nat)
    (gs vs : List TransformedGridNode)
    (h : prepare_data_for_powerflow settings nodes timestamp =
      some (gs, vs))
    (hone : nodes.countP (fun n => n.name == settings.slack) = 1) :
    gs.countP
        (fun tn => tn.typenumber == get_grid_node_type_index_of "slack") =
      1 ∧
    ∀ tn ∈ gs, tn.typenumber = get_grid_node_type_index_of "slack" →
      tn.name = settings.slack :=
  ⟨(prepare_slack_count h).trans hone, prepare_slack_name h⟩

/-- Witness for C6 at the concrete test network. -/
theorem c6_exactly_one_slack_per_timestamp_witness :
    w_gridnodes.countP
        (fun tn => tn.typenumber == get_grid_node_type_index_of "slack") =
      1 ∧
    ∀ tn ∈ w_gridnodes,
      tn.typenumber = get_grid_node_type_index_of "slack" →
      tn.name = w_settings.slack :=
  c6_exactly_one_slack_per_timestamp w_settings w_nodes 1 w_gridnodes
    w_voltagenodes w_prepare_eq (by decide)

/-- C7: the slack rule has highest precedence. Whenever the persistent
node at index `i` bears the configured slack name — with no assumption on
its aggregated generation or load — the transformed node at the same
index is a slack node: slack role index, fixed voltage magnitude 1.0 and
angle 0, per-unit active-power limits, and it is a member of the
fixed-voltage subset as well as of the full list. -/
theorem c7_slack_rule_highest_precedence (settings : Settings)
    (nodes : List GridNode) (timestamp : Nat)
    (gs vs : List TransformedGridNode)
    (h : prepare_data_for_powerflow settings nodes timestamp =
      some (gs, vs))
    (i : Nat) (hi : i < nodes.length)
    (hname : (nodes.get ⟨i, hi⟩).name = settings.slack) :
    ∃ (hi' : i < gs.length) (g : GenSums) (l : ℚ × ℚ),
      sum_generators (nodes.get ⟨i, hi⟩).generators timestamp = some g ∧
      sum_loads (nodes.get ⟨i, hi⟩).loads timestamp = some l ∧
      (gs.get ⟨i, hi'⟩).typenumber =
        get_grid_node_type_index_of "slack" ∧
      (gs.get ⟨i, hi'⟩).name = settings.slack ∧
      (gs.get ⟨i, hi'⟩).v_mag = 1 ∧
      (gs.get ⟨i, hi'⟩).v_angle = 0 ∧
      (gs.get ⟨i, hi'⟩).p_max = g.p_max / pu_s_nom settings ∧
      (gs.get ⟨i, hi'⟩).p_min = g.p_min / pu_s_nom settings ∧
      (gs.get ⟨i, hi'⟩).p_load = l.1 / pu_s_nom settings ∧
      (gs.get ⟨i, hi'⟩).q_load = l.2 / pu_s_nom settings ∧
      gs.get ⟨i, hi'⟩ ∈ gs ∧
      gs.get ⟨i, hi'⟩ ∈ vs := by
  obtain ⟨hlen, hpt⟩ := prepare_get h
  have hi' : i < gs.length := hlen ▸ hi
  obtain ⟨b, htn, hmem⟩ := hpt i hi hi'
  obtain ⟨g, l, hg, hl, hc⟩ := transform_node_eq htn
  rcases hc with ⟨_, htv, hb⟩ | ⟨hn, _, _, _⟩ | ⟨hn, _, _, _⟩
  · subst hb
    refine ⟨hi', g, l, hg, hl, ?_, ?_, ?_, ?_, ?_, ?_, ?_, ?_,
      List.get_mem gs i hi', hmem rfl⟩
    · rw [htv]
      rfl
    · rw [htv]
      exact hname
    · rw [htv]
      rfl
    · rw [htv]
      rfl
    · rw [htv]
      rfl
    · rw [htv]
      rfl
    · rw [htv]
      rfl
    · rw [htv]
      rfl
  · exact absurd hname hn
  · exact absurd hname hn

/-- Witness for C7 at the concrete test network, at index 0 (the node
named `S`). -/
theorem c7_slack_rule_highest_precedence_witness :
    (w_nodes.get ⟨0, by decide⟩).name = w_settings.slack ∧
    ∃ (hi' : 0 < w_gridnodes.length) (g : GenSums) (l : ℚ × ℚ),
      sum_generators (w_nodes.get ⟨0, by decide⟩).generators 1 = some g ∧
      sum_loads (w_nodes.get ⟨0, by decide⟩).loads 1 = some l ∧
      (w_gridnodes.get ⟨0, hi'⟩).typenumber =
        get_grid_node_type_index_of "slack" ∧
      (w_gridnodes.get ⟨0, hi'⟩).name = w_settings.slack ∧
      (w_gridnodes.get ⟨0, hi'⟩).v_mag = 1 ∧
      (w_gridnodes.get ⟨0, hi'⟩).v_angle = 0 ∧
      (w_gridnodes.get ⟨0, hi'⟩).p_max = g.p_max / pu_s_nom w_settings ∧
      (w_gridnodes.get ⟨0, hi'⟩).p_min = g.p_min / pu_s_nom w_settings ∧
      (w_gridnodes.get ⟨0, hi'⟩).p_load = l.1 / pu_s_nom w_settings ∧
      (w_gridnodes.get ⟨0, hi'⟩).q_load = l.2 / pu_s_nom w_settings ∧
      w_gridnodes.get ⟨0, hi'⟩ ∈ w_gridnodes ∧
      w_gridnodes.get ⟨0, hi'⟩ ∈ w_voltagenodes :=
  ⟨rfl, c7_slack_rule_highest_precedence w_settings w_nodes 1 w_gridnodes
    w_voltagenodes w_prepare_eq 0 (by decide) rfl⟩

/-- C8: a node whose name differs from the slack name and whose
aggregated active generation for the timestamp is zero is still emitted,
at its own index, as a PQ node — zero active and reactive generation,
per-unit load, PQ role index — never dropped and never a member of the
fixed-voltage subset; and when its aggregated load is zero as well, all
its injections are zero. -/
theorem c8_zero_generation_yields_pq_node (settings : Settings)
    (nodes : List GridNode) (timestamp : Nat)
    (gs vs : List TransformedGridNode)
    (h : prepare_data_for_powerflow settings nodes timestamp =
      some (gs, vs))
    (i : Nat) (hi : i < nodes.length)
    (hname : (nodes.get ⟨i, hi⟩).name ≠ settings.slack)
    (g : GenSums)
    (hg : sum_generators (nodes.get ⟨i, hi⟩).generators timestamp =
      some g)
    (hzero : g.p_gen = 0) :
    ∃ (hi' : i < gs.length) (l : ℚ × ℚ),
      sum_loads (nodes.get ⟨i, hi⟩).loads timestamp = some l ∧
      (gs.get ⟨i, hi'⟩).typenumber = get_grid_node_type_index_of "PQ" ∧
      (gs.get ⟨i, hi'⟩).p_gen = 0 ∧
      (gs.get ⟨i, hi'⟩).q_gen = 0 ∧
      (gs.get ⟨i, hi'⟩).p_load = l.1 / pu_s_nom settings ∧
      (gs.get ⟨i, hi'⟩).q_load = l.2 / pu_s_nom settings ∧
      gs.get ⟨i, hi'⟩ ∉ vs ∧
      (l.1 = 0 → (gs.get ⟨i, hi'⟩).p_load = 0) ∧
      (l.2 = 0 → (gs.get ⟨i, hi'⟩).q_load = 0) := by
  obtain ⟨hlen, hpt⟩ := prepare_get h
  have hi' : i < gs.length := hlen ▸ hi
  obtain ⟨b, htn, _⟩ := hpt i hi hi'
  obtain ⟨g', l, hg', hl, hc⟩ := transform_node_eq htn
  have hgg : g' = g := by
    have := hg'.symm.trans hg
    exact Option.some.inj this
  subst hgg
  rcases hc with ⟨hn, _, _⟩ | ⟨_, hpg, _, _⟩ | ⟨_, _, htv, _⟩
  · exact absurd hn hname
  · exact absurd hzero hpg
  · refine ⟨hi', l, hl, ?_, ?_, ?_, ?_, ?_, ?_, ?_, ?_⟩
    · rw [htv]
      rfl
    · rw [htv]
      rfl
    · rw [htv]
      rfl
    · rw [htv]
      rfl
    · rw [htv]
      rfl
    · intro hvmem
      have := prepare_voltagenodes_typenumber h _ hvmem
      rw [htv] at this
      rcases this with h0 | h1
      · exact absurd h0 (by simp [pq_transformed,
          get_grid_node_type_index_of])
      · exact absurd h1 (by simp [pq_transformed,
          get_grid_node_type_index_of])
    · intro h0
      rw [htv]
      simp [pq_transformed, h0]
    · intro h0
      rw [htv]
      simp [pq_transformed, h0]

/-- Witness for C8 at the concrete test network, at index 3 (the isolated
node named `Z`, which has no generators and no loads). -/
theorem c8_zero_generation_yields_pq_node_witness :
    (w_nodes.get ⟨3, by decide⟩).name ≠ w_settings.slack ∧
    sum_generators (w_nodes.get ⟨3, by decide⟩).generators 1 =
      some ⟨0, 0, 0, 0, 0, 0⟩ ∧
    ∃ (hi' : 3 < w_gridnodes.length) (l : ℚ × ℚ),
      sum_loads (w_nodes.get ⟨3, by decide⟩).loads 1 = some l ∧
      (w_gridnodes.get ⟨3, hi'⟩).typenumber =
        get_grid_node_type_index_of "PQ" ∧
      (w_gridnodes.get ⟨3, hi'⟩).p_gen = 0 ∧
      (w_gridnodes.get ⟨3, hi'⟩).q_gen = 0 ∧
      (w_gridnodes.get ⟨3, hi'⟩).p_load = l.1 / pu_s_nom w_settings ∧
      (w_gridnodes.get ⟨3, hi'⟩).q_load = l.2 / pu_s_nom w_settings ∧
      w_gridnodes.get ⟨3, hi'⟩ ∉ w_voltagenodes ∧
      (l.1 = 0 → (w_gridnodes.get ⟨3, hi'⟩).p_load = 0) ∧
      (l.2 = 0 → (w_gridnodes.get ⟨3, hi'⟩).q_load = 0) :=
  ⟨by decide, rfl,
    c8_zero_generation_yields_pq_node w_settings w_nodes 1 w_gridnodes
      w_voltagenodes w_prepare_eq 3 (by decide) (by decide)
      ⟨0, 0, 0, 0, 0, 0⟩ rfl rfl⟩

/-- Settings for the C2 failing input. -/
def c2_settings : Settings := ⟨1, 1, false, true, "S"⟩

/-- A generator whose series has entries for timestamps 1 and 3 but not
for timestamp 2. -/
def c2_generator : Generator := ⟨50, 0, 10, -10, [(1, ⟨5, 1⟩), (3, ⟨7, 2⟩)]⟩

/-- Node list of the C2 failing input: one generating node `A`. -/
def c2_nodes : List GridNode := [⟨"A", [c2_generator], []⟩]

/-- C2: the claim says a timestamp absent from a generator's series is
skipped, its failure recorded, and every remaining timestamp still
processed. The loop body of `do_powerflow` has no exception handling, so
the `KeyError` raised while classifying timestamp 2 propagates: the run
holds only timestamp 1's results, aborts at timestamp 2, and timestamp 3
is never processed or stored — the failure is not isolated. -/
theorem c2_missing_timestamp_aborts_whole_run :
    prepare_data_for_powerflow c2_settings c2_nodes 2 = none ∧
    do_powerflow c2_settings c2_nodes (fun t _ _ => t) [1, 2, 3] =
      RunOutcome.aborted [(1, 1)] 2 := by
  have h5 : (5 : ℚ) ≠ 0 := by norm_num
  refine ⟨?_, ?_⟩ <;>
    simp [do_powerflow, prepare_data_for_powerflow, transform_node,
      sum_generators, sum_loads, pv_transformed, pu_s_nom, pu_v_nom,
      List.lookup, get_grid_node_type_index_of, c2_settings, c2_generator,
      c2_nodes, h5]

/-- Node-result record of timestamp 1 in the C4 example: voltage
magnitudes 1.00 and 0.95. -/
def c4_t1 : NodeResultRecord := [("N1", ⟨some 1⟩), ("N2", ⟨some (95/100)⟩)]

/-- Node-result record of timestamp 2 in the C4 example: voltage
magnitudes 1.02 and 0.99. -/
def c4_t2 : NodeResultRecord :=
  [("N1", ⟨some (102/100)⟩), ("N2", ⟨some (99/100)⟩)]

/-- Node-result record of timestamp 3 in the C4 example: voltage
magnitudes 0.90 and 1.01. -/
def c4_t3 : NodeResultRecord :=
  [("N1", ⟨some (90/100)⟩), ("N2", ⟨some (101/100)⟩)]

/-- The timestamp-keyed node results of the C4 example. -/
def c4_node_results : List (Nat × NodeResultRecord) :=
  [(1, c4_t1), (2, c4_t2), (3, c4_t3)]

/-- The timestamp-keyed line results of the C4 example (opaque payloads
distinguishing the three timestamps). -/
def c4_line_results : List (Nat × Nat) := [(1, 11), (2, 22), (3, 33)]

/-- A node-result record shared by both timestamps of the C4 tie case. -/
def c4_tie_record : NodeResultRecord := [("N1", ⟨some 1⟩)]

/-- Node results of the C4 tie case: the same voltage magnitude at
timestamps 1 and 2. -/
def c4_tie_node_results : List (Nat × NodeResultRecord) :=
  [(1, c4_tie_record), (2, c4_tie_record)]

/-- Line results of the C4 tie case, distinguishing the timestamps. -/
def c4_tie_line_results : List (Nat × Nat) := [(1, 5), (2, 6)]

/-- C4: on the spec's example `T1:[1.00,0.95]`, `T2:[1.02,0.99]`,
`T3:[0.90,1.01]`, `get_worstcase_results` returns under the label `min`
the complete node-result and line-result records of timestamp 3 (global
minimum 0.90) and under `max` those of timestamp 2 (global maximum 1.02);
and because both running extremes update only on strict improvement, a
tie between timestamps 1 and 2 is resolved in favour of the first-seen
timestamp 1 for both extremes. -/
theorem c4_worstcase_selects_extreme_timestamps :
    get_worstcase_results [1, 2, 3] c4_node_results c4_line_results =
      some ([("min", c4_t3), ("max", c4_t2)],
            [("min", 33), ("max", 22)]) ∧
    get_worstcase_results [1, 2] c4_tie_node_results c4_tie_line_results =
      some ([("min", c4_tie_record), ("max", c4_tie_record)],
            [("min", 5), ("max", 5)]) := by
  have hA : (1 : ℚ) < 100000000000000000000 := by norm_num
  have hB : (0 : ℚ) < 1 := by norm_num
  have hC : (95/100 : ℚ) < 1 := by norm_num
  have hD : ¬ (1 : ℚ) < 95/100 := by norm_num
  have hE : (1 : ℚ) < 102/100 := by norm_num
  have hF : ¬ (102/100 : ℚ) < 95/100 := by norm_num
  have hG : ¬ (99/100 : ℚ) < 95/100 := by norm_num
  have hH : ¬ (102/100 : ℚ) < 99/100 := by norm_num
  have hI : (90/100 : ℚ) < 95/100 := by norm_num
  have hJ : ¬ (102/100 : ℚ) < 90/100 := by norm_num
  have hK : ¬ (101/100 : ℚ) < 90/100 := by norm_num
  have hL : ¬ (102/100 : ℚ) < 101/100 := by norm_num
  have hM : ¬ (1 : ℚ) < 1 := by norm_num
  refine ⟨?_, ?_⟩ <;>
    simp [get_worstcase_results, scan_timestamps, scan_node_entry,
      TIMESTAMP, List.lookup, c4_t1, c4_t2, c4_t3, c4_node_results,
      c4_line_results, c4_tie_record, c4_tie_node_results,
      c4_tie_line_results, hA, hB, hC, hD, hE, hF, hG, hH, hI, hJ, hK,
      hL, hM]

/-- The single node-result record of the C5 failing input: its only node
entry exposes no voltage-magnitude field. -/
def c5_record : NodeResultRecord := [("N1", ⟨none⟩)]

/-- Node results of the C5 failing input, recorded under the legitimate
timestamp key 0. -/
def c5_node_results : List (Nat × NodeResultRecord) := [(0, c5_record)]

/-- Line results of the C5 failing input. -/
def c5_line_results : List (Nat × Nat) := [(0, 7)]

/-- C5: the claim says that when no node-result entry of any timestamp
exposes a voltage-magnitude field, `get_worstcase_results` fails
explicitly. In the code both worst-case timestamps keep their sentinel
initial value 0, and when 0 is a legitimate recorded timestamp the
function silently succeeds, returning the results stored under key 0
instead of failing. -/
theorem c5_no_voltage_field_silently_returns_timestamp_zero :
    get_worstcase_results [0] c5_node_results c5_line_results =
      some ([("min", c5_record), ("max", c5_record)],
            [("min", 7), ("max", 7)]) := by
  simp [get_worstcase_results, scan_timestamps, scan_node_entry,
    TIMESTAMP, List.lookup, c5_record, c5_node_results, c5_line_results]

/-- C10: in every reachable state of a `Grid` object — every state whose
assigned attribute names are among those the class ever assigns —
`get_inverse_of_bus_admittance_matrix` raises `AttributeError`, because
the name-mangled attribute `_Grid__bus_admittance_matrix` it reads is
never assigned (the matrix is stored under the plain name
`bus_admittance_matrix`). -/
theorem c10_inverse_accessor_always_raises (attrs : List String)
    (hreach : ∀ a ∈ attrs, a ∈ grid_assigned_attribute_names) :
    get_inverse_of_bus_admittance_matrix attrs =
      Except.error PyAttrError.attributeError := by
  rw [get_inverse_of_bus_admittance_matrix, if_neg]
  intro hmem
  exact absurd (hreach _ hmem) (by decide)

/-- Witness for C10 at the maximal reachable attribute set. -/
theorem c10_inverse_accessor_always_raises_witness :
    (∀ a ∈ grid_assigned_attribute_names,
      a ∈ grid_assigned_attribute_names) ∧
    get_inverse_of_bus_admittance_matrix grid_assigned_attribute_names =
      Except.error PyAttrError.attributeError :=
  ⟨fun _ h => h,
    c10_inverse_accessor_always_raises grid_assigned_attribute_names
      (fun _ h => h)⟩

